import Mathlib

/-!
Verification development for the Java peer-review exercise generator
(generation / evaluation / regeneration / review state machine).

The Lean definitions below are a shallow embedding of the Python sources:
  - `src/core/code_evaluation.py`        (CodeEvaluationAgent)
  - `src/core/student_response_evaluator.py` (StudentResponseEvaluator)
  - `src/data/json_error_repository.py`  (JsonErrorRepository)
  - `src/utils/code_utils.py`            (code-version extraction helpers)
  - `src/workflow/node.py`               (WorkflowNodes)
  - `src/workflow/conditions.py`         (WorkflowConditions)

Python dictionaries are embedded as Lean structures whose fields are the
keys the code reads or writes; optional / possibly-absent keys become
`Option` fields, and `dict.get(k, d)` becomes `Option.getD`.  External
collaborators (the LLM oracles, the random number generator, the error
enrichment helper) are passed in as function parameters, mirroring the
constructor-injection used by the Python classes.
-/

/-- One catalog / requested error record, as the dictionaries built by
`JsonErrorRepository` (keys `type`, `category`, `name`, `description`,
`implementation_guide`). -/
structure ErrorDict where
  type_ : String
  category : String
  name : String
  description : String
  implementation_guide : String
deriving Repr, DecidableEq

/-- A raw catalog entry from `build_errors.json` / `checkstyle_error.json`.
`name` models the `error_name` key of build entries and the `check_name`
key of checkstyle entries (the two trees use different key names for the
same role). -/
structure CatalogError where
  name : String
  description : String
  implementation_guide : String
deriving Repr, DecidableEq

/-- The `selected_categories` dictionary with its `build` and `checkstyle`
lists (absent keys read through `.get(_, [])` become empty lists). -/
structure SelectedCategories where
  build : List String
  checkstyle : List String
deriving Repr, DecidableEq

/-- The loaded repository data: the two category trees, as association
lists keyed by category name (`self.build_errors` / `self.checkstyle_errors`). -/
structure Repo where
  build_errors : List (String × List CatalogError)
  checkstyle_errors : List (String × List CatalogError)
deriving Repr, DecidableEq

/-- One entry of the `found_errors` list of an evaluation result
(keys `error_type`, `error_name`, and the `original_data` key added by
`_process_evaluation_result`). -/
structure FoundError where
  error_type : String
  error_name : String
  original_data : Option ErrorDict := none
deriving Repr, DecidableEq

/-- An entry of the `missing_errors` list.  The default result of
`evaluate_code` stores the raw requested-error dictionaries there, while
`_process_evaluation_result` stores `error_type`/`error_name`/`explanation`
dictionaries; both shapes occur in the source. -/
inductive MissingEntry where
  | raw (e : ErrorDict)
  | explained (error_type error_name explanation : String)
deriving Repr, DecidableEq

/-- The evaluation-result dictionary threaded through
`CodeEvaluationAgent` and the workflow.  `extra_errors` is never written
by `_process_evaluation_result` but is read (with default `[]`) by
`WorkflowConditions.should_regenerate_or_review`, so a JSON-supplied value
is preserved. -/
structure EvalResult where
  found_errors : List FoundError := []
  missing_errors : List MissingEntry := []
  valid : Bool := false
  feedback : String := ""
  extra_errors : List String := []
deriving Repr, DecidableEq

/-! ## `CodeEvaluationAgent` (src/core/code_evaluation.py) -/

/-- Python `str.upper()` (ASCII case mapping), written over the character list so
that it reduces inside the kernel. -/
def pyUpper (s : String) : String := String.mk (s.data.map Char.toUpper)

/-- Python `str.lower()` (ASCII case mapping), written over the character list so
that it reduces inside the kernel. -/
def pyLower (s : String) : String := String.mk (s.data.map Char.toLower)


/-- The `f"{error_type} - {error_name}"` key of a requested error, with
`error.get("type", "").upper()` (code_evaluation.py lines 507-512). -/
def reqKey (e : ErrorDict) : String := pyUpper e.type_ ++ " - " ++ e.name

/-- The key of a `found_errors` entry, with
`error.get("error_type", "").upper()` (code_evaluation.py lines 517-519). -/
def foundKey (e : FoundError) : String := pyUpper e.error_type ++ " - " ++ e.error_name

/-- One `requested_keys[key] = error` assignment on a Python dict embedded
as an insertion-ordered association list: an existing key keeps its
position and gets the new value, a new key is appended. -/
def insertKey (m : List (String × ErrorDict)) (k : String) (e : ErrorDict) :
    List (String × ErrorDict) :=
  if m.any (fun p => p.1 == k) then
    m.map (fun p => if p.1 == k then (k, e) else p)
  else
    m ++ [(k, e)]

/-- The `requested_keys` dict built by the
`for error in requested_errors: requested_keys[key] = error` loop
(code_evaluation.py lines 507-512). -/
def requestedKeysMap (requested_errors : List ErrorDict) : List (String × ErrorDict) :=
  requested_errors.foldl (fun m e => insertKey m (reqKey e) e) []

/-- Lookup of `requested_keys[key]`. -/
def lookupKey (m : List (String × ErrorDict)) (k : String) : Option ErrorDict :=
  (m.find? (fun p => p.1 == k)).map (·.2)

/-- Embeds `CodeEvaluationAgent._process_evaluation_result`
(code_evaluation.py lines 488-556): cross-checks the oracle's
`found_errors` against the requested set by type+name key, recomputes
`missing_errors` from the validated found set, and overwrites `valid`
with `len(missing_errors) == 0`. -/
def _process_evaluation_result (result : EvalResult) (requested_errors : List ErrorDict) :
    EvalResult :=
  let requested_keys := requestedKeysMap requested_errors
  let validated_found :=
    (result.found_errors.filter (fun e => requested_keys.any (fun p => p.1 == foundKey e))).map
      (fun e => { e with original_data := lookupKey requested_keys (foundKey e) })
  let found_keys := validated_found.map foundKey
  let missing_errors :=
    (requested_keys.filter (fun p => !(found_keys.contains p.1))).map
      (fun p => MissingEntry.explained (pyUpper p.2.type_) p.2.name
        "No implementation of this error found in the code")
  let valid := missing_errors.isEmpty
  { result with
    found_errors := validated_found
    missing_errors := missing_errors
    valid := valid
    feedback :=
      if valid then
        "All " ++ toString requested_errors.length ++ " requested errors are properly implemented."
      else
        "Found " ++ toString validated_found.length ++ " out of " ++
          toString requested_errors.length ++ " requested errors. Missing " ++
          toString missing_errors.length ++ " errors." }

/-- The `default_result` dictionary of `CodeEvaluationAgent.evaluate_code`
(code_evaluation.py lines 55-60): no found errors, the raw requested list
as `missing_errors`, `valid = False`. -/
def default_evaluation_result (requested_errors : List ErrorDict) : EvalResult :=
  { found_errors := []
    missing_errors := requested_errors.map MissingEntry.raw
    valid := false
    feedback := "Could not evaluate code. Please ensure the code contains all " ++
      toString requested_errors.length ++ " requested errors."
    extra_errors := [] }

/-- Embeds `CodeEvaluationAgent.evaluate_code` (code_evaluation.py lines 43-110).
The external LLM call plus `_extract_json_from_response` are abstracted as
the `oracle` parameter: `none` models `self.llm` being `None`
(line 63), `some none` models a response on which every JSON-extraction
strategy failed or that raised (lines 101-103 and 108-110), and
`some (some r)` models a successfully extracted JSON result, which is then
post-processed by `_process_evaluation_result` (line 106). -/
def evaluate_code (oracle : Option (Option EvalResult)) (code : String)
    (requested_errors : List ErrorDict) : EvalResult :=
  match oracle with
  | none => default_evaluation_result requested_errors
  | some none => default_evaluation_result requested_errors
  | some (some extracted) => _process_evaluation_result extracted requested_errors

/-- Modelled from the spec (section 4.3), for comparison with the code:
the deterministic textual fallback in which a requested defect counts as
found iff its name appears verbatim (case-insensitively) in the source.
The body follows the spec's words; `evaluate_code` above is what the code
actually does. -/
def specTextualMatchFound (code : String) (name : String) : Bool :=
  decide ((pyLower name).data <:+: (pyLower code).data)

/-! ## `JsonErrorRepository` (src/data/json_error_repository.py) -/

/-- The default categories substituted by `get_errors_for_llm` when the
caller selected none (json_error_repository.py lines 353-359). -/
def defaultCategories : SelectedCategories :=
  { build := ["CompileTimeErrors", "RuntimeErrors", "LogicalErrors"]
    checkstyle := ["NamingConventionChecks", "WhitespaceAndFormattingChecks"] }

/-- The categories actually used by the category-based branch of
`get_errors_for_llm`: the defaults when both selection lists are empty,
the caller's selection otherwise. -/
def effectiveCategories (c : SelectedCategories) : SelectedCategories :=
  if c.build.isEmpty && c.checkstyle.isEmpty then defaultCategories else c

/-- Embeds `category in self.build_errors` / `self.build_errors[category]` on the
embedded association list. -/
def findCat (tree : List (String × List CatalogError)) (category : String) :
    Option (List CatalogError) :=
  (tree.find? (fun p => p.1 == category)).map (·.2)

/-- The difficulty-adjusted error count
(json_error_repository.py lines 292-298):
`{"easy": max(2, count - 2), "medium": count, "hard": count + 2}.get(difficulty.lower(), count)`. -/
def adjustedCount (count : Nat) (difficulty : String) : Nat :=
  let d := pyLower difficulty
  if d = "easy" then max 2 (count - 2)
  else if d = "medium" then count
  else if d = "hard" then count + 2
  else count

/-- The problem-description line built for one selected error
(json_error_repository.py lines 328-331 and 416-419). -/
def problemDescription (e : ErrorDict) : String :=
  if pyLower e.type_ = "build" then
    "Build Error - " ++ e.name ++ ": " ++ e.description ++ " (Category: " ++ e.category ++ ")"
  else
    "Checkstyle Error - " ++ e.name ++ ": " ++ e.description ++ " (Category: " ++ e.category ++ ")"

/-- The per-category collection loop of the category-based branch
(json_error_repository.py lines 361-398).  `sample` abstracts
`random.sample` (draw that many distinct entries) and `pickCount`
abstracts `random.randint(1, 2)` for a given (type, category) pair;
`num_to_select = min(len(category_errors), randint(1, 2))`. -/
def collectFromCategories (sample : List CatalogError → Nat → List CatalogError)
    (pickCount : String → String → Nat) (repo : Repo) (cats : SelectedCategories) :
    List ErrorDict :=
  let fromTree := fun (type_ : String) (tree : List (String × List CatalogError))
      (selected : List String) =>
    selected.flatMap (fun category =>
      match findCat tree category with
      | none => []
      | some category_errors =>
        let num_to_select := min category_errors.length (pickCount type_ category)
        if 0 < num_to_select then
          (sample category_errors num_to_select).map (fun e =>
            { type_ := type_, category := category, name := e.name,
              description := e.description,
              implementation_guide := e.implementation_guide : ErrorDict })
        else [])
  fromTree "build" repo.build_errors cats.build ++
    fromTree "checkstyle" repo.checkstyle_errors cats.checkstyle

/-- Embeds `JsonErrorRepository._get_implementation_guide`
(json_error_repository.py lines 433-455). -/
def _get_implementation_guide (repo : Repo) (error_type : String) (error_name : String)
    (category : String) : Option String :=
  if error_type = "build" then
    match findCat repo.build_errors category with
    | some errors => (errors.find? (fun e => e.name == error_name)).map (·.implementation_guide)
    | none => none
  else if error_type = "checkstyle" then
    match findCat repo.checkstyle_errors category with
    | some errors => (errors.find? (fun e => e.name == error_name)).map (·.implementation_guide)
    | none => none
  else none

/-- Embeds `JsonErrorRepository.get_errors_for_llm`
(json_error_repository.py lines 274-431).  `sampleSel` abstracts the
`random.sample(all_errors, adjusted_count)` trimming draw; `sample` and
`pickCount` are the per-category randomness (see `collectFromCategories`).
`selected_categories = none` models passing `None` (or an empty dict). -/
def get_errors_for_llm (sample : List CatalogError → Nat → List CatalogError)
    (sampleSel : List ErrorDict → Nat → List ErrorDict)
    (pickCount : String → String → Nat) (repo : Repo)
    (selected_categories : Option SelectedCategories)
    (specific_errors : List ErrorDict) (count : Nat) (difficulty : String) :
    List ErrorDict × List String :=
  let adjusted_count := adjustedCount count difficulty
  if !specific_errors.isEmpty then
    let selected_errors := specific_errors.map (fun e =>
      match _get_implementation_guide repo e.type_ e.name e.category with
      | some g => if g ≠ "" then { e with implementation_guide := g } else e
      | none => e)
    (selected_errors, selected_errors.map problemDescription)
  else
    match selected_categories with
    | some cats =>
      let cats := effectiveCategories cats
      let all_errors := collectFromCategories sample pickCount repo cats
      let selected_errors :=
        if adjusted_count < all_errors.length then sampleSel all_errors adjusted_count
        else all_errors
      (selected_errors, selected_errors.map problemDescription)
    | none => ([], [])

/-! ## `StudentResponseEvaluator` (src/core/student_response_evaluator.py) -/

/-- An element of the `identified_problems` / `missed_problems` /
`false_positives` lists of the oracle's analysis JSON: a dict carrying the
expected key (`"problem"`, resp. `"student_comment"`), a bare string, or
anything else. -/
inductive JEntry where
  | keyed (value : String)
  | plain (s : String)
  | other
deriving Repr, DecidableEq

/-- The simplification loops of `_process_enhanced_analysis`
(student_response_evaluator.py lines 166-188). -/
def simpleOfEntries (l : List JEntry) : List String :=
  l.filterMap (fun e =>
    match e with
    | JEntry.keyed v => some v
    | JEntry.plain s => some s
    | JEntry.other => none)

/-- The analysis dictionary extracted from the scoring oracle's response,
with exactly the keys `_process_enhanced_analysis` reads; absent keys are
`none`. -/
structure AnalysisData where
  identified_count : Option ℚ := none
  missed_count : Option ℚ := none
  false_positive_count : Option ℚ := none
  total_problems : Option ℚ := none
  review_quality_score : Option ℚ := none
  review_sufficient : Option Bool := none
  identified_problems : List JEntry := []
  missed_problems : List JEntry := []
  false_positives : List JEntry := []
  feedback : Option String := none
deriving Repr, DecidableEq

/-- The enhanced-analysis result dictionary built by
`_process_enhanced_analysis` (student_response_evaluator.py lines 203-220). -/
structure EnhancedAnalysis where
  identified_problems : List JEntry := []
  missed_problems : List JEntry := []
  false_positives : List JEntry := []
  simple_identified : List String := []
  simple_missed : List String := []
  simple_false_positives : List String := []
  identified_count : ℚ := 0
  missed_count : ℚ := 0
  false_positive_count : ℚ := 0
  total_problems : ℚ := 0
  identified_percentage : ℚ := 0
  accuracy_percentage : ℚ := 0
  review_quality_score : ℚ := 5
  review_sufficient : Bool := false
  feedback : String := ""
deriving Repr, DecidableEq

/-- Embeds `StudentResponseEvaluator._fallback_evaluation`
(student_response_evaluator.py lines 224-247).  The Python dict carries no
`simple_*`, `missed_count`, `false_positive_count` or
`review_quality_score` keys; those fields keep the structure's defaults
here. -/
def _fallback_evaluation (known_problems : List String) : EnhancedAnalysis :=
  { identified_problems := []
    missed_problems := known_problems.map JEntry.plain
    false_positives := []
    accuracy_percentage := 0
    identified_percentage := 0
    identified_count := 0
    total_problems := (known_problems.length : ℚ)
    review_sufficient := false
    feedback := "Your review needs improvement. Try to identify more issues in the code." }

/-- Embeds `StudentResponseEvaluator._process_enhanced_analysis`
(student_response_evaluator.py lines 119-222).
`min_identified_percentage` is the threshold configured on the evaluator
(default `60.0`); `analysis_data = none` models a falsy (empty) dict. -/
def _process_enhanced_analysis (min_identified_percentage : ℚ)
    (analysis_data : Option AnalysisData) (known_problems : List String) :
    EnhancedAnalysis :=
  match analysis_data with
  | none => _fallback_evaluation known_problems
  | some data =>
    let identified_count := data.identified_count.getD 0
    let missed_count := data.missed_count.getD 0
    let false_positive_count := data.false_positive_count.getD 0
    let total_problems := data.total_problems.getD (known_problems.length : ℚ)
    let identified_percentage :=
      if 0 < total_problems then identified_count / total_problems * 100 else 100
    let review_quality_score := data.review_quality_score.getD 5
    let review_sufficient :=
      match data.review_sufficient with
      | some b => b
      | none => decide (min_identified_percentage ≤ identified_percentage)
    let feedback0 := data.feedback.getD ""
    let feedback :=
      if feedback0 = "" then
        if 80 ≤ identified_percentage then
          "Excellent review! You found most of the issues in the code."
        else if 60 ≤ identified_percentage then
          "Good review. You found many issues, but missed some important ones."
        else if 40 ≤ identified_percentage then
          "Fair review. You found some issues, but missed many important ones."
        else
          "Your review needs improvement. You missed most of the issues in the code."
      else feedback0
    { identified_problems := data.identified_problems
      missed_problems := data.missed_problems
      false_positives := data.false_positives
      simple_identified := simpleOfEntries data.identified_problems
      simple_missed := simpleOfEntries data.missed_problems
      simple_false_positives := simpleOfEntries data.false_positives
      identified_count := identified_count
      missed_count := missed_count
      false_positive_count := false_positive_count
      total_problems := total_problems
      identified_percentage := identified_percentage
      accuracy_percentage := identified_percentage
      review_quality_score := review_quality_score
      review_sufficient := review_sufficient
      feedback := feedback }

/-! ## Code-version extraction (src/utils/code_utils.py) -/

/-- Tests `"// ERROR:" in line` — the defect-marker test used when deriving the
clean version (code_utils.py line 580). -/
def hasErrorMarker (line : String) : Bool :=
  decide ("// ERROR:".data <:+: line.data)

/-- The `clean_lines` list built by the fallback of
`extract_both_code_versions` (code_utils.py lines 577-581): every line of
the annotated code whose text does not contain the error marker.  Python's
`str.splitlines()` is modelled as splitting on `"\n"` (the separator the
join on line 582 re-inserts). -/
def cleanLinesOf (annotated_code : String) : List String :=
  (annotated_code.splitOn "\n").filter (fun line => !hasErrorMarker line)

/-- The derived clean version, `"\n".join(clean_lines)`
(code_utils.py line 582). -/
def cleanFromAnnotated (annotated_code : String) : String :=
  String.intercalate "\n" (cleanLinesOf annotated_code)

/-! ## Workflow state (state_schema usage as read by src/workflow) -/

/-- One review submission (`ReviewAttempt`): the fields read and written
by `analyze_review_node`. -/
structure ReviewAttempt where
  student_review : String
  analysis : Option EnhancedAnalysis := none
  targeted_guidance : Option String := none
deriving Repr, DecidableEq

/-- The `CodeSnippet` object built by `generate_code_node`
(node.py lines 95-104). -/
structure CodeSnippet where
  code : String
  clean_code : String
  known_problems : List String
  raw_errors_build : List ErrorDict
  raw_errors_checkstyle : List ErrorDict
  enhanced_errors : List ErrorDict
deriving Repr, DecidableEq

/-- The `WorkflowState` record threaded through the workflow nodes, with
the fields the nodes and conditions read or write. -/
structure WorkflowState where
  code_length : String := "medium"
  difficulty_level : String := "medium"
  selected_error_categories : SelectedCategories := { build := [], checkstyle := [] }
  code_snippet : Option CodeSnippet := none
  evaluation_result : Option EvalResult := none
  evaluation_attempts : Nat := 0
  max_evaluation_attempts : Nat := 3
  code_generation_feedback : Option String := none
  current_step : String := "generate"
  error : Option String := none
  review_history : List ReviewAttempt := []
  current_iteration : Nat := 1
  max_iterations : Nat := 3
  review_sufficient : Bool := false
deriving Repr, DecidableEq

/-! ## `WorkflowNodes` (src/workflow/node.py) -/

/-- Embeds `WorkflowNodes._extract_requested_errors` (node.py lines 385-399):
concatenates the `raw_errors` lists (dict iteration order: `build` then
`checkstyle`). -/
def _extract_requested_errors (state : WorkflowState) : List ErrorDict :=
  match state.code_snippet with
  | none => []
  | some cs => cs.raw_errors_build ++ cs.raw_errors_checkstyle

/-- Embeds `WorkflowNodes.generate_code_node` (node.py lines 42-114).
Collaborators are parameters, mirroring the injected components:
`getErrors` is `self.error_repository.get_errors_for_llm` composed with
`get_error_count_for_difficulty`, `genLLM` is
`self.code_generator._generate_with_llm`, `extractBoth` is
`extract_both_code_versions` (its regex layer), and `enrich` is
`enrich_error_information`. -/
def generate_code_node
    (getErrors : SelectedCategories → String → List ErrorDict × List String)
    (genLLM : String → String → List ErrorDict → String)
    (extractBoth : String → String × String)
    (enrich : String → List ErrorDict → List ErrorDict × List String)
    (state : WorkflowState) : WorkflowState :=
  let state := { state with
    evaluation_attempts := 0
    evaluation_result := none
    code_generation_feedback := none }
  if state.selected_error_categories.build.isEmpty &&
      state.selected_error_categories.checkstyle.isEmpty then
    { state with error := some ("No error categories selected. " ++
      "Please select at least one error category before generating code.") }
  else
    let (selected_errors, _) := getErrors state.selected_error_categories state.difficulty_level
    let response := genLLM state.code_length state.difficulty_level selected_errors
    let (annotated_code, clean_code) := extractBoth response
    let (enhanced_errors, detailed_problems) := enrich annotated_code selected_errors
    let code_snippet : CodeSnippet :=
      { code := annotated_code
        clean_code := clean_code
        known_problems := detailed_problems
        raw_errors_build := enhanced_errors.filter (fun e => e.type_ == "build")
        raw_errors_checkstyle := enhanced_errors.filter (fun e => e.type_ == "checkstyle")
        enhanced_errors := enhanced_errors }
    { state with code_snippet := some code_snippet, current_step := "review" }

/-- Embeds `WorkflowNodes.evaluate_code_node` (node.py lines 180-244).
`evalFn` is `self.code_evaluation.evaluate_code` and `promptFn` is
`self.code_evaluation.generate_improved_prompt`. -/
def evaluate_code_node (evalFn : String → List ErrorDict → EvalResult)
    (promptFn : String → List ErrorDict → EvalResult → String)
    (state : WorkflowState) : WorkflowState :=
  match state.code_snippet with
  | none => { state with error := some "No code snippet available for evaluation" }
  | some cs =>
    let code := cs.code
    let requested_errors := _extract_requested_errors state
    let evaluation_result := evalFn code requested_errors
    let state := { state with
      evaluation_result := some evaluation_result
      evaluation_attempts := state.evaluation_attempts + 1 }
    if evaluation_result.valid then
      { state with current_step := "review" }
    else
      let state := { state with
        code_generation_feedback := some (promptFn code requested_errors evaluation_result) }
      if state.max_evaluation_attempts ≤ state.evaluation_attempts then
        { state with current_step := "review" }
      else
        { state with current_step := "regenerate" }

/-- Embeds `WorkflowNodes.analyze_review_node` (node.py lines 260-343).
`evaluator` models `getattr(self, "evaluator", None)` and, when present,
the dispatched `evaluate_review_enhanced` / `evaluate_review` call;
`guidanceFn` models `self._generate_guidance`. -/
def analyze_review_node
    (evaluator : Option (String → List String → String → List ErrorDict → EnhancedAnalysis))
    (guidanceFn : String → List String → String → EnhancedAnalysis → Nat → Nat → String)
    (state : WorkflowState) : WorkflowState :=
  match state.review_history.getLast? with
  | none => { state with error := some "No review submitted to analyze" }
  | some latest_review =>
    let student_review := latest_review.student_review
    match state.code_snippet with
    | none => { state with error := some "No code snippet available" }
    | some cs =>
      match evaluator with
      | none => { state with error := some "Student response evaluator not initialized" }
      | some ev =>
        let analysis := ev cs.code cs.known_problems student_review cs.enhanced_errors
        let latest_review := { latest_review with analysis := some analysis }
        let review_sufficient := analysis.review_sufficient
        let latest_review :=
          if !review_sufficient && decide (state.current_iteration < state.max_iterations) then
            { latest_review with targeted_guidance := some (guidanceFn cs.code
                cs.known_problems student_review analysis
                state.current_iteration state.max_iterations) }
          else latest_review
        { state with
          review_history := state.review_history.dropLast ++ [latest_review]
          review_sufficient := review_sufficient
          current_iteration := state.current_iteration + 1
          current_step := "analyze" }

/-! ## `WorkflowConditions` (src/workflow/conditions.py) -/

/-- Embeds `WorkflowConditions.should_regenerate_or_review`
(conditions.py lines 23-68). -/
def should_regenerate_or_review (state : WorkflowState) : String :=
  if state.current_step = "regenerate" then "regenerate_code"
  else if (match state.evaluation_result with
           | some r => r.valid
           | none => false) then "review_code"
  else
    let has_missing_errors :=
      match state.evaluation_result with
      | some r => decide (0 < r.missing_errors.length)
      | none => false
    let has_extra_errors :=
      match state.evaluation_result with
      | some r => decide (0 < r.extra_errors.length)
      | none => false
    let needs_regeneration := has_missing_errors || has_extra_errors
    if needs_regeneration && decide (state.evaluation_attempts < state.max_evaluation_attempts) then
      "regenerate_code"
    else
      "review_code"

/-- Embeds `WorkflowConditions.should_continue_review`
(conditions.py lines 70-99). -/
def should_continue_review (state : WorkflowState) : String :=
  if state.max_iterations < state.current_iteration then "generate_summary"
  else if state.review_sufficient then "generate_summary"
  else "continue_review"

/-! ## Helper lemmas about the requested-keys dictionary -/

lemma any_key_insertKey (m : List (String × ErrorDict)) (k' : String) (e : ErrorDict)
    (k : String) :
    (insertKey m k' e).any (fun p => p.1 == k) = (m.any (fun p => p.1 == k) || (k' == k)) := by
  unfold insertKey
  by_cases h : m.any (fun p => p.1 == k') = true
  · simp only [h, if_true]
    rw [List.any_map]
    have hpt : ∀ p : String × ErrorDict,
        (((if p.1 == k' then (k', e) else p)).1 == k) = (p.1 == k) := by
      intro p
      cases hp : (p.1 == k') with
      | false => simp [hp]
      | true => simp [hp, eq_of_beq hp]
    simp only [Function.comp_def, hpt]
    cases hk : (k' == k) with
    | false => simp
    | true =>
      have hkk : k' = k := eq_of_beq hk
      subst hkk
      simp [h]
  · simp only [h, if_false, Bool.not_eq_true] at *
    simp [h]
lemma any_key_requestedKeysMap (req : List ErrorDict) (k : String) :
    (requestedKeysMap req).any (fun p => p.1 == k) = req.any (fun q => reqKey q == k) := by
  have main : ∀ (l : List ErrorDict) (acc : List (String × ErrorDict)),
      (l.foldl (fun m e => insertKey m (reqKey e) e) acc).any (fun p => p.1 == k) =
        (acc.any (fun p => p.1 == k) || l.any (fun q => reqKey q == k)) := by
    intro l
    induction l with
    | nil => intro acc; simp
    | cons q t ih =>
      intro acc
      simp only [List.foldl_cons, ih, any_key_insertKey, List.any_cons, Bool.or_assoc]
  simpa using main req []

lemma mem_keys_requestedKeysMap (req : List ErrorDict) (k : String) :
    (∃ p ∈ requestedKeysMap req, p.1 = k) ↔ ∃ q ∈ req, reqKey q = k := by
  constructor
  · rintro ⟨p, hp, hk⟩
    have h1 : (requestedKeysMap req).any (fun p => p.1 == k) = true :=
      List.any_eq_true.mpr ⟨p, hp, by simpa using hk⟩
    rw [any_key_requestedKeysMap] at h1
    obtain ⟨q, hq, hbeq⟩ := List.any_eq_true.mp h1
    exact ⟨q, hq, by simpa using hbeq⟩
  · rintro ⟨q, hq, hk⟩
    have h1 : req.any (fun q => reqKey q == k) = true :=
      List.any_eq_true.mpr ⟨q, hq, by simpa using hk⟩
    rw [← any_key_requestedKeysMap] at h1
    obtain ⟨p, hp, hbeq⟩ := List.any_eq_true.mp h1
    exact ⟨p, hp, by simpa using hbeq⟩

lemma processed_found_eq (result : EvalResult) (requested : List ErrorDict) :
    (_process_evaluation_result result requested).found_errors =
      (result.found_errors.filter
        (fun e => (requestedKeysMap requested).any (fun p => p.1 == foundKey e))).map
        (fun e => { e with original_data := lookupKey (requestedKeysMap requested) (foundKey e) }) :=
  rfl

lemma processed_missing_eq (result : EvalResult) (requested : List ErrorDict) :
    (_process_evaluation_result result requested).missing_errors =
      ((requestedKeysMap requested).filter
        (fun p => !(((_process_evaluation_result result requested).found_errors.map
            foundKey).contains p.1))).map
        (fun p => MissingEntry.explained (pyUpper p.2.type_) p.2.name
          "No implementation of this error found in the code") :=
  rfl

lemma processed_valid_eq (result : EvalResult) (requested : List ErrorDict) :
    (_process_evaluation_result result requested).valid =
      (_process_evaluation_result result requested).missing_errors.isEmpty :=
  rfl

/-- C1: `_process_evaluation_result` keeps in `found_errors` only defects
whose type+name key is in the requested set, and its `valid` field is true
iff every requested defect's key appears among the validated found defects
(equivalently, iff `missing_errors` is empty), regardless of the `valid`
flag the oracle response carried. -/
theorem process_evaluation_result_cross_check (result : EvalResult)
    (requested : List ErrorDict) :
    (∀ e ∈ (_process_evaluation_result result requested).found_errors,
        ∃ q ∈ requested, foundKey e = reqKey q) ∧
    ((_process_evaluation_result result requested).valid = true ↔
        ∀ q ∈ requested,
          reqKey q ∈ (_process_evaluation_result result requested).found_errors.map foundKey) ∧
    ((_process_evaluation_result result requested).valid =
        (_process_evaluation_result result requested).missing_errors.isEmpty) ∧
    (∀ b : Bool,
        _process_evaluation_result { result with valid := b } requested =
          _process_evaluation_result result requested) := by
  refine ⟨?_, ?_, processed_valid_eq result requested, fun b => rfl⟩
  · intro e he
    rw [processed_found_eq] at he
    simp only [List.mem_map, List.mem_filter] at he
    obtain ⟨e', ⟨he'mem, he'key⟩, rfl⟩ := he
    obtain ⟨p, hp, hbeq⟩ := List.any_eq_true.mp he'key
    have hk : p.1 = foundKey e' := by simpa using hbeq
    obtain ⟨q, hq, hqk⟩ := (mem_keys_requestedKeysMap requested (foundKey e')).mp ⟨p, hp, hk⟩
    exact ⟨q, hq, hqk.symm⟩
  · rw [processed_valid_eq, processed_missing_eq, List.isEmpty_iff, List.map_eq_nil_iff,
      List.filter_eq_nil_iff]
    constructor
    · intro hvalid q hq
      obtain ⟨p, hp, hpk⟩ := (mem_keys_requestedKeysMap requested (reqKey q)).mpr ⟨q, hq, rfl⟩
      have hc := hvalid p hp
      simp only [Bool.not_eq_true, Bool.not_eq_false] at hc
      rw [← hpk]
      simpa using hc
    · intro hall p hp
      obtain ⟨q, hq, hqk⟩ := (mem_keys_requestedKeysMap requested p.1).mp ⟨p, hp, rfl⟩
      have hm := hall q hq
      rw [hqk] at hm
      simp only [Bool.not_eq_true, Bool.not_eq_false]
      simpa using hm

/-- A concrete requested-error list for exercising C1. -/
def reqC1 : List ErrorDict :=
  [{ type_ := "build", category := "LogicalErrors", name := "Unintended integer division",
     description := "Integer division used where floating point was intended",
     implementation_guide := "" }]

/-- A concrete oracle result for exercising C1: it reports the requested
defect found but self-reports `valid = False`. -/
def resC1 : EvalResult :=
  { found_errors := [{ error_type := "BUILD", error_name := "Unintended integer division" }]
    valid := false }

/-- Witness for C1 at a concrete input: the locally recomputed `valid` is
true (the requested defect was found) even though the oracle self-reported
`valid = False`. -/
theorem process_evaluation_result_cross_check_witness :
    (_process_evaluation_result resC1 reqC1).valid = true :=
  (process_evaluation_result_cross_check resC1 reqC1).2.1.mpr (by decide)

/-- C2: when the evaluation result is not valid and the incremented
attempt counter has reached `max_evaluation_attempts`,
`evaluate_code_node` sets the step to review and
`should_regenerate_or_review` routes to `"review_code"`, never to
regeneration. -/
theorem evaluation_budget_exhausted_goes_to_review
    (evalFn : String → List ErrorDict → EvalResult)
    (promptFn : String → List ErrorDict → EvalResult → String)
    (state : WorkflowState) (cs : CodeSnippet)
    (hcs : state.code_snippet = some cs)
    (hinvalid : (evalFn cs.code (_extract_requested_errors state)).valid = false)
    (hbudget : state.max_evaluation_attempts ≤ state.evaluation_attempts + 1) :
    (evaluate_code_node evalFn promptFn state).current_step = "review" ∧
    (evaluate_code_node evalFn promptFn state).evaluation_attempts =
      state.evaluation_attempts + 1 ∧
    should_regenerate_or_review (evaluate_code_node evalFn promptFn state) = "review_code" := by
  have hnode : evaluate_code_node evalFn promptFn state =
      { state with
        evaluation_result := some (evalFn cs.code (_extract_requested_errors state))
        evaluation_attempts := state.evaluation_attempts + 1
        code_generation_feedback := some (promptFn cs.code (_extract_requested_errors state)
          (evalFn cs.code (_extract_requested_errors state)))
        current_step := "review" } := by
    simp only [evaluate_code_node, hcs, hinvalid, Bool.false_eq_true, if_false]
    rw [if_pos hbudget]
  refine ⟨by rw [hnode], by rw [hnode], ?_⟩
  rw [hnode]
  simp only [should_regenerate_or_review, hinvalid]
  have hlt : ¬ (state.evaluation_attempts + 1 < state.max_evaluation_attempts) := by omega
  simp [hlt]

/-- A concrete code snippet object for exercising the workflow nodes. -/
def csW : CodeSnippet :=
  { code := "class A {}"
    clean_code := "class A {}"
    known_problems := []
    raw_errors_build := []
    raw_errors_checkstyle := []
    enhanced_errors := [] }

/-- A concrete state entering its third evaluation attempt. -/
def stateC2 : WorkflowState :=
  { code_snippet := some csW
    evaluation_attempts := 2
    max_evaluation_attempts := 3 }

/-- An evaluation oracle that always reports incomplete. -/
def alwaysIncomplete : String → List ErrorDict → EvalResult := fun _ _ => { valid := false }

/-- A trivial regeneration-prompt builder. -/
def noPrompt : String → List ErrorDict → EvalResult → String := fun _ _ _ => ""

/-- Witness for C2 at a concrete input: `max_evaluation_attempts = 3`,
third evaluation (two prior attempts), an oracle that still reports
incomplete — the next step is review, not regeneration. -/
theorem evaluation_budget_exhausted_goes_to_review_witness :
    (evaluate_code_node alwaysIncomplete noPrompt stateC2).current_step = "review" ∧
    should_regenerate_or_review (evaluate_code_node alwaysIncomplete noPrompt stateC2) =
      "review_code" := by
  have h := evaluation_budget_exhausted_goes_to_review alwaysIncomplete noPrompt stateC2 csW
    rfl rfl (by decide)
  exact ⟨h.1, h.2.2⟩

/-- A state whose latest evaluation is self-reported valid but whose
`current_step` was set to `"regenerate"`. -/
def stateC3 : WorkflowState :=
  { current_step := "regenerate"
    evaluation_result := some { valid := true } }

/-- Counterexample for C3: a state whose evaluation result has
`valid == true` but whose `current_step` is `"regenerate"` is routed to
`"regenerate_code"`, not `"review_code"` — the explicit `current_step`
check precedes the validity check in `should_regenerate_or_review`. -/
theorem should_regenerate_or_review_valid_not_first :
    (stateC3.evaluation_result.map (fun r => r.valid) = some true) ∧
    should_regenerate_or_review stateC3 ≠ "review_code" ∧
    should_regenerate_or_review stateC3 = "regenerate_code" := by
  refine ⟨rfl, by decide, rfl⟩

/-- C3 (amended): for every state whose `current_step` is not
`"regenerate"`, a valid evaluation result routes to `"review_code"`,
irrespective of `evaluation_attempts` or any other field. -/
theorem should_regenerate_or_review_valid (state : WorkflowState) (r : EvalResult)
    (hstep : state.current_step ≠ "regenerate")
    (hres : state.evaluation_result = some r) (hvalid : r.valid = true) :
    should_regenerate_or_review state = "review_code" := by
  simp [should_regenerate_or_review, hstep, hres, hvalid]

/-- A concrete state past its attempt budget with a valid evaluation. -/
def stateC3w : WorkflowState :=
  { current_step := "evaluate"
    evaluation_attempts := 5
    max_evaluation_attempts := 3
    evaluation_result := some { valid := true } }

/-- Witness for the amended C3 at a concrete state (attempt counter past
the budget, step `"evaluate"`). -/
theorem should_regenerate_or_review_valid_witness :
    should_regenerate_or_review stateC3w = "review_code" :=
  should_regenerate_or_review_valid stateC3w { valid := true } (by decide) rfl rfl

/-- A trivial error-catalog collaborator. -/
def noErrors : SelectedCategories → String → List ErrorDict × List String := fun _ _ => ([], [])

/-- A trivial generation-oracle collaborator. -/
def noGen : String → String → List ErrorDict → String := fun _ _ _ => ""

/-- A trivial both-versions extraction collaborator. -/
def idExtract : String → String × String := fun s => (s, s)

/-- A trivial enrichment collaborator. -/
def noEnrich : String → List ErrorDict → List ErrorDict × List String := fun _ _ => ([], [])

/-- A concrete state with an empty category selection but non-trivial
prior evaluation artifacts. -/
def stateC4 : WorkflowState :=
  { selected_error_categories := { build := [], checkstyle := [] }
    code_snippet := some csW
    evaluation_result := some { valid := true }
    evaluation_attempts := 2
    code_generation_feedback := some "prior feedback" }

/-- Counterexample for C4: on an empty category selection,
`generate_code_node` does not leave `evaluation_attempts`,
`evaluation_result` and `code_generation_feedback` at their prior values —
it resets them (to `0` / `None` / `None`) before the selection check. -/
theorem generate_code_node_empty_selection_resets :
    (generate_code_node noErrors noGen idExtract noEnrich stateC4).error ≠ none ∧
    stateC4.evaluation_attempts = 2 ∧
    (generate_code_node noErrors noGen idExtract noEnrich stateC4).evaluation_attempts = 0 ∧
    stateC4.evaluation_result ≠ none ∧
    (generate_code_node noErrors noGen idExtract noEnrich stateC4).evaluation_result = none ∧
    stateC4.code_generation_feedback ≠ none ∧
    (generate_code_node noErrors noGen idExtract noEnrich stateC4).code_generation_feedback =
      none := by
  refine ⟨by decide, rfl, rfl, by decide, rfl, by decide, rfl⟩

/-- C4 (amended): on an empty category selection, `generate_code_node`
sets the error description, resets `evaluation_attempts` to 0 and clears
`evaluation_result` and `code_generation_feedback`, and leaves every other
field of the state unchanged (in particular the previous `code_snippet`). -/
theorem generate_code_node_empty_selection (getErrors : SelectedCategories → String →
      List ErrorDict × List String)
    (genLLM : String → String → List ErrorDict → String)
    (extractBoth : String → String × String)
    (enrich : String → List ErrorDict → List ErrorDict × List String)
    (state : WorkflowState)
    (hb : state.selected_error_categories.build = [])
    (hc : state.selected_error_categories.checkstyle = []) :
    generate_code_node getErrors genLLM extractBoth enrich state =
      { state with
        evaluation_attempts := 0
        evaluation_result := none
        code_generation_feedback := none
        error := some ("No error categories selected. " ++
          "Please select at least one error category before generating code.") } := by
  simp [generate_code_node, hb, hc]

/-- Witness for the amended C4 at the concrete state above. -/
theorem generate_code_node_empty_selection_witness :
    generate_code_node noErrors noGen idExtract noEnrich stateC4 =
      { stateC4 with
        evaluation_attempts := 0
        evaluation_result := none
        code_generation_feedback := none
        error := some ("No error categories selected. " ++
          "Please select at least one error category before generating code.") } :=
  generate_code_node_empty_selection noErrors noGen idExtract noEnrich stateC4 rfl rfl

/-- The source code of the C5 counterexample: it contains the requested
defect's name verbatim. -/
def codeC5 : String := "public class Demo { int unusedVariable = 5; }"

/-- The single requested defect of the C5 counterexample. -/
def reqC5 : List ErrorDict :=
  [{ type_ := "checkstyle", category := "NamingConventionChecks", name := "unusedVariable",
     description := "Variable declared but never used", implementation_guide := "" }]

/-- Counterexample for C5: with no LLM configured, the requested defect's
name appears verbatim in the source, yet `evaluate_code` reports no found
defect at all — it returns the default result instead of the textual
match the spec describes. -/
theorem evaluate_code_no_textual_fallback :
    specTextualMatchFound codeC5 "unusedVariable" = true ∧
    ¬ ∃ f ∈ (evaluate_code none codeC5 reqC5).found_errors,
        f.error_name = "unusedVariable" := by
  refine ⟨by decide, ?_⟩
  rintro ⟨f, hf, -⟩
  simp [evaluate_code, default_evaluation_result] at hf

/-- C5 (amended): whenever the oracle is unavailable (no LLM) or every
JSON-extraction strategy fails, `evaluate_code` returns the default
result: no found errors, the whole requested list as `missing_errors`,
and `valid = false` — not a textual match. -/
theorem evaluate_code_fallback_default (code : String) (requested : List ErrorDict) :
    evaluate_code none code requested = default_evaluation_result requested ∧
    evaluate_code (some none) code requested = default_evaluation_result requested ∧
    (default_evaluation_result requested).found_errors = [] ∧
    (default_evaluation_result requested).valid = false ∧
    (default_evaluation_result requested).missing_errors = requested.map MissingEntry.raw :=
  ⟨rfl, rfl, rfl, rfl, rfl⟩

/-- A concrete catalog holding one build error under the default category
`CompileTimeErrors`. -/
def repoC6 : Repo :=
  { build_errors := [("CompileTimeErrors",
      [{ name := "Missing semicolon", description := "Statement without a semicolon",
         implementation_guide := "Drop a semicolon at a statement end" }])]
    checkstyle_errors := [] }

/-- A deterministic stand-in for `random.sample` on catalog entries:
takes the first `k`. -/
def takeSample : List CatalogError → Nat → List CatalogError := fun l k => l.take k

/-- A deterministic stand-in for `random.sample` on selected errors:
takes the first `k`. -/
def takeSampleSel : List ErrorDict → Nat → List ErrorDict := fun l k => l.take k

/-- A deterministic stand-in for `random.randint(1, 2)` always giving 1. -/
def oneEach : String → String → Nat := fun _ _ => 1

/-- Counterexample for C6: with both selection lists empty and a
non-empty catalog, `get_errors_for_llm` substitutes the default
categories and returns a non-empty defect list instead of the empty list
the claim requires. -/
theorem get_errors_for_llm_empty_selection_not_empty :
    (get_errors_for_llm takeSample takeSampleSel oneEach repoC6
      (some { build := [], checkstyle := [] }) [] 4 "medium").1 ≠ [] := by
  decide

/-- C6 (amended): when no categories are selected (both lists empty),
`get_errors_for_llm` substitutes the default categories and proceeds with
them — the call behaves exactly as if `defaultCategories` had been
selected (and in particular never throws; it returns the empty list only
when the catalog holds nothing under the default categories). -/
theorem get_errors_for_llm_empty_selection_uses_defaults
    (sample : List CatalogError → Nat → List CatalogError)
    (sampleSel : List ErrorDict → Nat → List ErrorDict)
    (pickCount : String → String → Nat) (repo : Repo) (count : Nat) (difficulty : String) :
    (get_errors_for_llm sample sampleSel pickCount repo
        (some { build := [], checkstyle := [] }) [] count difficulty =
      get_errors_for_llm sample sampleSel pickCount repo
        (some defaultCategories) [] count difficulty) ∧
    get_errors_for_llm sample sampleSel pickCount
        { build_errors := [], checkstyle_errors := [] }
        (some { build := [], checkstyle := [] }) [] count difficulty = ([], []) :=
  ⟨rfl, rfl⟩

/-- C7: the caller-supplied base count is difficulty-adjusted
(easy → max(2, base−2), medium → base, hard → base+2); the returned list
has at most the adjusted count of defects; when the per-category union
exceeds the adjusted count the result is downsampled to exactly that
count, and otherwise the whole union is returned as-is. -/
theorem get_errors_for_llm_count_invariant
    (sample : List CatalogError → Nat → List CatalogError)
    (sampleSel : List ErrorDict → Nat → List ErrorDict)
    (pickCount : String → String → Nat) (repo : Repo) (cats : SelectedCategories)
    (count : Nat) (difficulty : String)
    (hs : ∀ (l : List ErrorDict) (k : Nat), k ≤ l.length → (sampleSel l k).length = k) :
    (adjustedCount count "easy" = max 2 (count - 2) ∧
     adjustedCount count "medium" = count ∧
     adjustedCount count "hard" = count + 2) ∧
    (get_errors_for_llm sample sampleSel pickCount repo (some cats) [] count difficulty).1.length
      ≤ adjustedCount count difficulty ∧
    (adjustedCount count difficulty <
        (collectFromCategories sample pickCount repo (effectiveCategories cats)).length →
      (get_errors_for_llm sample sampleSel pickCount repo
          (some cats) [] count difficulty).1.length = adjustedCount count difficulty) ∧
    ((collectFromCategories sample pickCount repo (effectiveCategories cats)).length ≤
        adjustedCount count difficulty →
      (get_errors_for_llm sample sampleSel pickCount repo (some cats) [] count difficulty).1 =
        collectFromCategories sample pickCount repo (effectiveCategories cats)) := by
  have hout : (get_errors_for_llm sample sampleSel pickCount repo
      (some cats) [] count difficulty).1 =
      if adjustedCount count difficulty <
          (collectFromCategories sample pickCount repo (effectiveCategories cats)).length then
        sampleSel (collectFromCategories sample pickCount repo (effectiveCategories cats))
          (adjustedCount count difficulty)
      else collectFromCategories sample pickCount repo (effectiveCategories cats) := rfl
  refine ⟨⟨rfl, rfl, rfl⟩, ?_, ?_, ?_⟩
  · rw [hout]
    by_cases hlt : adjustedCount count difficulty <
        (collectFromCategories sample pickCount repo (effectiveCategories cats)).length
    · rw [if_pos hlt, hs _ _ (Nat.le_of_lt hlt)]
    · rw [if_neg hlt]
      exact Nat.le_of_not_lt hlt
  · intro hlt
    rw [hout, if_pos hlt, hs _ _ (Nat.le_of_lt hlt)]
  · intro hle
    rw [hout, if_neg (Nat.not_lt.mpr hle)]

/-- Witness for C7 at a concrete repository and selection. -/
theorem get_errors_for_llm_count_invariant_witness :
    (get_errors_for_llm takeSample takeSampleSel oneEach repoC6
      (some { build := ["CompileTimeErrors"], checkstyle := [] }) [] 4 "medium").1.length ≤
      adjustedCount 4 "medium" :=
  (get_errors_for_llm_count_invariant takeSample takeSampleSel oneEach repoC6
    { build := ["CompileTimeErrors"], checkstyle := [] } 4 "medium"
    (fun l k hk => by simp [takeSampleSel, List.length_take, Nat.min_eq_left hk])).2.1

/-- C8: when the scoring oracle's response carries no explicit
`review_sufficient` field, the review is judged sufficient iff
`identified_percentage` is at least the configured threshold (default
60.0) — a percentage of exactly the threshold yields sufficient, any
percentage strictly below yields insufficient. -/
theorem review_sufficiency_threshold (t : ℚ) (data : AnalysisData)
    (known_problems : List String) (h : data.review_sufficient = none) :
    ((_process_enhanced_analysis t (some data) known_problems).review_sufficient = true ↔
      t ≤ (_process_enhanced_analysis t (some data) known_problems).identified_percentage) := by
  have hsuff : (_process_enhanced_analysis t (some data) known_problems).review_sufficient =
      decide (t ≤ (_process_enhanced_analysis t (some data)
        known_problems).identified_percentage) := by
    simp [_process_enhanced_analysis, h]
  rw [hsuff]
  exact decide_eq_true_iff

/-- Analysis data identifying 3 of 5 problems, with no explicit
`review_sufficient` field: exactly the 60% boundary. -/
def dataC8 : AnalysisData :=
  { identified_count := some 3, total_problems := some 5 }

/-- Analysis data identifying 2 of 5 problems, with no explicit
`review_sufficient` field: strictly below the 60% boundary. -/
def dataC8b : AnalysisData :=
  { identified_count := some 2, total_problems := some 5 }

/-- Witness for C8 at the default threshold 60: exactly 60% is
sufficient, 40% is not. -/
theorem review_sufficiency_threshold_witness :
    (_process_enhanced_analysis 60 (some dataC8) []).review_sufficient = true ∧
    (_process_enhanced_analysis 60 (some dataC8b) []).review_sufficient = false := by
  constructor
  · apply (review_sufficiency_threshold 60 dataC8 [] rfl).mpr
    have hp : (_process_enhanced_analysis 60 (some dataC8) []).identified_percentage = 60 := by
      norm_num [_process_enhanced_analysis, dataC8]
    rw [hp]
  · have h := review_sufficiency_threshold 60 dataC8b [] rfl
    have hq : (_process_enhanced_analysis 60 (some dataC8b) []).identified_percentage = 40 := by
      norm_num [_process_enhanced_analysis, dataC8b]
    rw [← Bool.not_eq_true, h, hq]
    norm_num

lemma length_filter_not_add_countP (l : List String) (p : String → Bool) :
    (l.filter (fun a => !p a)).length + l.countP p = l.length := by
  induction l with
  | nil => simp
  | cons a t ih =>
    cases h : p a <;> simp [List.filter_cons, List.countP_cons, h] <;> omega

/-- C9: deriving the clean version deletes exactly the defect-marker
lines: the clean line list is `N` lines shorter than the annotated line
list, where `N` is the number of marker lines, it is an (order- and
text-preserving) sublist of the annotated lines, and no marker line
remains. -/
theorem clean_version_coherence (annotated_code : String) :
    (cleanLinesOf annotated_code).length +
        (annotated_code.splitOn "\n").countP (fun l => hasErrorMarker l) =
      (annotated_code.splitOn "\n").length ∧
    (cleanLinesOf annotated_code).Sublist (annotated_code.splitOn "\n") ∧
    (∀ l ∈ cleanLinesOf annotated_code, hasErrorMarker l = false) ∧
    cleanFromAnnotated annotated_code = String.intercalate "\n" (cleanLinesOf annotated_code) := by
  refine ⟨?_, List.filter_sublist _, ?_, rfl⟩
  · exact length_filter_not_add_countP (annotated_code.splitOn "\n") (fun l => hasErrorMarker l)
  · intro l hl
    have := (List.mem_filter.mp hl).2
    simpa using this

/-- C10: every successful run of `analyze_review_node` (non-empty review
history, code snippet present, evaluator initialized) increments
`current_iteration` by exactly 1, whatever verdict the analysis carries —
in particular also when the review was judged sufficient. -/
theorem analyze_review_increments_iteration
    (ev : String → List String → String → List ErrorDict → EnhancedAnalysis)
    (g : String → List String → String → EnhancedAnalysis → Nat → Nat → String)
    (state : WorkflowState) (latest : ReviewAttempt)
    (hlast : state.review_history.getLast? = some latest)
    (cs : CodeSnippet) (hcs : state.code_snippet = some cs) :
    (analyze_review_node (some ev) g state).current_iteration =
      state.current_iteration + 1 ∧
    (analyze_review_node (some ev) g state).error = state.error := by
  simp [analyze_review_node, hlast, hcs]

/-- A concrete single-entry review history. -/
def reviewW : ReviewAttempt := { student_review := "Line 1 divides integers unintentionally" }

/-- A concrete state ready for review analysis. -/
def stateC10 : WorkflowState :=
  { code_snippet := some csW
    review_history := [reviewW]
    current_iteration := 1
    max_iterations := 3 }

/-- An evaluator stub that judges every review sufficient. -/
def sufficientEval : String → List String → String → List ErrorDict → EnhancedAnalysis :=
  fun _ _ _ _ => { review_sufficient := true }

/-- A guidance stub. -/
def noGuidance : String → List String → String → EnhancedAnalysis → Nat → Nat → String :=
  fun _ _ _ _ _ _ => ""

/-- Witness for C10: the iteration counter is incremented even though the
review was judged sufficient. -/
theorem analyze_review_increments_iteration_witness :
    (analyze_review_node (some sufficientEval) noGuidance stateC10).current_iteration = 2 :=
  (analyze_review_increments_iteration sufficientEval noGuidance stateC10 reviewW rfl
    csW rfl).1
